import Mathlib

/-!
Verification development for the MNEE-Sentinel repository.

The definitions below are a shallow embedding of the TypeScript/Solidity
sources:
* `JValue` models dynamically typed JavaScript values (objects as ordered
  field lists, `undefined`, `null`), so that field access, optional
  chaining and the `||` (truthiness) operator behave as in the source.
* `VendorRegistry` embeds `agent/src/VendorRegistry.ts`.
* `MandateManager.createMandate` embeds the EIP-712 mandate signer; the
  keccak hash and ECDSA signature are modelled as injective canonical
  encodings of exactly the data that ethers.js feeds into them (the domain
  separator plus the fields declared in `TYPES`), so equality of the
  modelled hash corresponds to equality of hash pre-images in the source.
* The Telegram bot's session handlers (`approve_mandate` callback and the
  `message:text` handler with its PIN / multisig branches) are embedded as
  pure state-transition functions over `SessionData`, with external
  observations (`Date.now()`, `userSettings.hasPin`, `validatePin`,
  `process.env.PRIVATE_KEY`) passed in as oracle inputs and settlement
  calls returned as an explicit effect list.
* `GeminiAuditor.auditMandate` and the two retry loops are embedded with
  the external Gemini call's outcome passed in as an oracle input.
* `MNEEEscrow.releaseFunds` is embedded with revert-as-`Except` semantics
  and an ERC-20 balance map; `keccak256(abi.encodePacked _)` is an
  arbitrary function parameter.
-/

namespace Sentinel

/-- Substring occurrence on character lists, by structural recursion on
the haystack (so that proofs can evaluate it). -/
def containsSub (needle : List Char) : List Char → Bool
  | [] => needle.isEmpty
  | c :: rest => needle.isPrefixOf (c :: rest) || containsSub needle rest

/-- JavaScript-style substring test: `hay.includes(needle)` (an empty
needle is always contained). -/
def strIncludes (hay needle : String) : Bool :=
  containsSub needle.data hay.data

/-- ASCII `toLowerCase()` (all strings the embedded code lowercases are
ASCII). -/
def lowerStr (s : String) : String :=
  ⟨s.data.map Char.toLower⟩

/-- ASCII `toUpperCase()`. -/
def upperStr (s : String) : String :=
  ⟨s.data.map Char.toUpper⟩

/-- Dynamically typed JavaScript values, as far as the embedded code
inspects them: `undefined`, `null`, numbers, strings, booleans, arrays and
objects (ordered field lists). -/
inductive JValue where
  | vundefined
  | vnull
  | vnum (q : ℚ)
  | vstr (s : String)
  | vbool (b : Bool)
  | varr (xs : List JValue)
  | vobj (fields : List (String × JValue))

/-- JavaScript truthiness. -/
def JValue.truthy : JValue → Bool
  | .vundefined => false
  | .vnull => false
  | .vnum q => q ≠ 0
  | .vstr s => s ≠ ""
  | .vbool b => b
  | .varr _ => true
  | .vobj _ => true

/-- Property access `v.k`; on `null`/`undefined` this models the optional
chain `v?.k` (the handlers only access fields through optional chains or
after a truthiness guard). Missing fields give `undefined`. -/
def JValue.get (v : JValue) (k : String) : JValue :=
  match v with
  | .vobj fields =>
    match fields.lookup k with
    | some x => x
    | none => .vundefined
  | _ => .vundefined

/-- JavaScript `a || b`. -/
def jor (a b : JValue) : JValue := if a.truthy then a else b

/-- `Number.prototype.toString` restricted to the integral values the
embedded flows produce. -/
def jnumToString (q : ℚ) : String :=
  if q.den = 1 then toString q.num else toString q

/-- JavaScript `String(v)` / `.toString()` on the values the handlers
convert (strings and numbers). -/
def jsToString : JValue → String
  | .vundefined => "undefined"
  | .vnull => "null"
  | .vnum q => jnumToString q
  | .vstr s => s
  | .vbool b => if b then "true" else "false"
  | .varr _ => ""
  | .vobj _ => "[object Object]"

/-! ## VendorRegistry (`agent/src/VendorRegistry.ts`) -/

structure VerifiedVendor where
  id : String
  name : String
  walletAddress : String
  riskTier : String
  category : String
deriving Repr, DecidableEq

/-- The static trusted-payee registry. -/
def REGISTRY : List VerifiedVendor :=
  [ ⟨"v_aws_01", "AWS Web Services", "0x742d35Cc6634C0532925a3b844Bc454e4438f44e",
      "LOW", "Infrastructure"⟩,
    ⟨"v_google_02", "Google Cloud Platform", "0x8888888888888888888888888888888888888888",
      "LOW", "Infrastructure"⟩,
    ⟨"v_stripe_01", "Stripe Payments", "0x9999999999999999999999999999999999999999",
      "LOW", "Finance"⟩,
    ⟨"v_devshop_01", "Acme Dev Shop", "0x1234567890123456789012345678901234567890",
      "MEDIUM", "Services"⟩ ]

/-- `VendorRegistry.findVendor`: exact id match or case-insensitive
substring match on the vendor name. -/
def findVendor (query : String) : Option VerifiedVendor :=
  let lowerQ := lowerStr query
  REGISTRY.find? fun v =>
    lowerStr v.id = lowerQ || strIncludes (lowerStr v.name) lowerQ

/-- `VendorRegistry.getAddress`. -/
def vendorGetAddress (name : String) : Option String :=
  (findVendor name).map (·.walletAddress)

/-! ## MandateManager (`MandateManager.ts`) -/

/-- The EIP-712 domain separator as declared in the source. -/
structure Eip712Domain where
  name : String
  version : String
  chainId : ℕ
  verifyingContract : String
deriving Repr, DecidableEq

def DOMAIN : Eip712Domain :=
  ⟨"MNEESentinel", "1", 84532, "0x0000000000000000000000000000000000000000"⟩

/-- The field names of the `Mandate` struct declared in `TYPES`.
ethers.js encodes exactly these fields of the value object; any other
property (in particular `conditions`) is never fed to the encoder. -/
def mandateTypeFields : List String := ["agent", "maxAmount", "expiry", "nonce"]

/-- Canonical encoding of the EIP-712 signing input: the domain separator
plus the declared fields of the mandate value, in declaration order. This
is the keccak pre-image; the model uses the encoding itself as the hash,
so equal encodings correspond to equal hashes in the source. -/
def eip712Input (d : Eip712Domain) (m : JValue) : String :=
  d.name ++ "|" ++ d.version ++ "|" ++ toString d.chainId ++ "|"
    ++ d.verifyingContract ++ "|"
    ++ String.intercalate "|" (mandateTypeFields.map fun f => jsToString (m.get f))

/-- `ethers.TypedDataEncoder.hash(DOMAIN, TYPES, mandate)` (modelled). -/
def eip712Hash (d : Eip712Domain) (m : JValue) : String :=
  "keccak(" ++ eip712Input d m ++ ")"

/-- `signer.signTypedData(DOMAIN, TYPES, mandate)` (modelled): a
deterministic function of the signer's key and the same signing input. -/
def signTypedData (signerKey : String) (d : Eip712Domain) (m : JValue) : String :=
  "sig(" ++ signerKey ++ ";" ++ eip712Input d m ++ ")"

/-- `MandateManager.createMandate`. The random nonce and `Date.now()/1000`
are oracle inputs. Returns the literal object
`{mandate, signature, hash}` that the source returns — note there is no
top-level `amount` or `maxAmount` field on this wrapper. -/
def createMandate (signerAddr signerKey : String) (amount : String)
    (ttlSeconds : ℤ) (nonce : ℕ) (nowSec : ℤ) (conditions : List String) : JValue :=
  let expiry : ℤ := nowSec + ttlSeconds
  let mandate : JValue := .vobj
    [ ("agent", .vstr signerAddr),
      ("maxAmount", .vstr amount),
      ("expiry", .vnum (expiry : ℚ)),
      ("nonce", .vnum (nonce : ℚ)),
      ("conditions", .varr (conditions.map .vstr)) ]
  .vobj
    [ ("mandate", mandate),
      ("signature", .vstr (signTypedData signerKey DOMAIN mandate)),
      ("hash", .vstr (eip712Hash DOMAIN mandate)) ]

/-- Extract a `conditions`-style array of strings from a `JValue`. -/
def JValue.asStringList : JValue → Option (List String)
  | .varr xs => xs.mapM fun v =>
      match v with
      | .vstr s => some s
      | _ => none
  | _ => none

/-! ## Telegram bot session state machine (`bot/src/bot.ts`)

The `SessionData` interface and the three handlers that drive the
approval protocol are embedded as pure functions. Fields the modelled
handlers never touch (`authorizedAdmins`, `voiceEnrolled`,
`challengeWord`, `lastTxHash`, `pendingPrivacyHash`, `lastZKProof`) are
omitted from the state. External observations are oracle inputs in `Env`
(`Date.now()`, `userSettings.hasPin`, `process.env.PRIVATE_KEY`) or
per-call arguments (the `validatePin` outcome). -/

inductive Step where
  | IDLE
  | AWAITING_MANDATE_APPROVAL
  | AWAITING_MULTISIG
  | AWAITING_CHALLENGE
  | AWAITING_PIN
deriving Repr, DecidableEq

inductive Mode where
  | DEMO
  | PRODUCTION
deriving Repr, DecidableEq

structure SessionData where
  step : Step
  pendingMandate : JValue
  pendingIntent : JValue
  reactionCount : ℕ
  pinAttempts : ℕ
  pinLockoutUntil : Option ℕ
  mode : Mode

/-- Environment observations made by the handlers. Times are the
millisecond values of `Date.now()`. -/
structure Env where
  nowMs : ℕ
  hasPin : Bool
  privateKeySet : Bool

/-- One invocation of `executeTransaction`; `production = true` means the
real settlement call `tokenService.sendTransfer` was made, `false` means
the demo-mode simulated path. -/
structure ExecCall where
  recipient : String
  amount : String
  production : Bool
deriving Repr, DecidableEq

/-- Result of a bot handler: the updated session, the
`executeTransaction` invocations it performed, whether the multisig
branch reported its threshold met ("Multi-Sig Threshold Met (2/3).
Executing..."), and whether the NLP branch would start a fresh payment
flow (`handlePaymentIntent`). -/
structure BotOutcome where
  session : SessionData
  execCalls : List ExecCall
  thresholdMet : Bool
  startsPayFlow : Bool

/-- `executeTransaction(ctx, recipient, amount, isProduction, intent)`:
in production it calls `tokenService.sendTransfer`; in demo it only logs a
simulated transfer; both branches then set `step = "IDLE"` and
`pendingMandate = null`. -/
def executeTransaction (s : SessionData) (recipient amount : String)
    (isProduction : Bool) : SessionData × List ExecCall :=
  ({ s with step := .IDLE, pendingMandate := .vnull },
    [⟨recipient, amount, isProduction⟩])

/-- The recipient-resolution expression shared by the approval and PIN
paths:
`intent?.address || VendorRegistry.getAddress(intent?.recipient || "") || "0xE357..."`. -/
def fallbackRecipient : String := "0xE357CFDd3EEC59dE39CA315b9667d36E3b3bBf96"

def resolveRecipient (intent : JValue) : String :=
  jsToString
    (jor (jor (intent.get "address")
        (match vendorGetAddress (jsToString (jor (intent.get "recipient") (.vstr ""))) with
         | some a => .vstr a
         | none => .vnull))
      (.vstr fallbackRecipient))

/-- The amount expression of the `approve_mandate` handler:
`(mandate.maxAmount || mandate.amount || intent?.amount || '0').toString()`. -/
def approveAmount (mandate intent : JValue) : String :=
  jsToString
    (jor (jor (jor (mandate.get "maxAmount") (mandate.get "amount"))
        (intent.get "amount"))
      (.vstr "0"))

/-- The amount expression of the PIN resume flow:
`(mandate.amount || '50').toString()`. -/
def pinResumeAmount (mandate : JValue) : String :=
  jsToString (jor (mandate.get "amount") (.vstr "50"))

/-- The multisig quorum branch shared by the `approve_mandate` callback
and the `"APPROVE"` text message: increment `reactionCount` and report
the threshold met once it reaches 2 (resetting the session). The
approver's identity is available to the source handler (`ctx.from`) but
never consulted in this branch. -/
def multisigBranch (s : SessionData) : SessionData × Bool :=
  let rc := s.reactionCount + 1
  if rc ≥ 2 then
    ({ s with step := .IDLE, reactionCount := 0 }, true)
  else
    ({ s with reactionCount := rc }, false)

/-- The `bot.callbackQuery("approve_mandate")` handler. `fromId` is
`ctx.from?.id` (used only to key the `hasPin` lookup, which the oracle
`env.hasPin` answers). -/
def approveCallback (env : Env) (_fromId : ℕ) (s : SessionData) : BotOutcome :=
  if s.step = .AWAITING_MULTISIG then
    let (s1, met) := multisigBranch s
    ⟨s1, [], met, false⟩
  else if s.step = .AWAITING_MANDATE_APPROVAL then
    if ¬ s.pendingMandate.truthy then
      ⟨{ s with step := .IDLE }, [], false, false⟩
    else
      let intent := s.pendingIntent
      let recipient := resolveRecipient intent
      let amount := approveAmount s.pendingMandate intent
      let isProduction := s.mode = .PRODUCTION ∧ env.privateKeySet
      if isProduction then
        if ¬ env.hasPin then
          ⟨s, [], false, false⟩
        else
          ⟨{ s with step := .AWAITING_PIN }, [], false, false⟩
      else
        let (s1, calls) := executeTransaction s recipient amount false
        ⟨{ s1 with step := .IDLE, pendingMandate := .vnull }, calls, false, false⟩
  else
    ⟨s, [], false, false⟩

/-- Lockout test: `ctx.session.pinLockoutUntil && Date.now() < ctx.session.pinLockoutUntil`
(a zero timestamp is falsy, and `now < 0` is vacuously false on ℕ). -/
def lockedOut (s : SessionData) (nowMs : ℕ) : Bool :=
  match s.pinLockoutUntil with
  | some t => nowMs < t
  | none => false

/-- The `bot.on("message:text")` handler. `pinValid` is the outcome the
stored salted hash comparison (`userSettings.validatePin`) would give for
this text — the handler may or may not consult it. -/
def textHandler (env : Env) (t : String) (pinValid : Bool) (s : SessionData) : BotOutcome :=
  if s.step = .AWAITING_PIN then
    if lockedOut s env.nowMs then
      ⟨s, [], false, false⟩
    else if pinValid then
      let s1 := { s with pinAttempts := 0, pinLockoutUntil := none }
      if s1.pendingMandate.truthy then
        let intent := s1.pendingIntent
        let recipient := resolveRecipient intent
        let amount := pinResumeAmount s1.pendingMandate
        let (s2, calls) := executeTransaction s1 recipient amount true
        ⟨s2, calls, false, false⟩
      else
        ⟨{ s1 with step := .IDLE }, [], false, false⟩
    else
      let attempts := s.pinAttempts + 1
      if attempts ≥ 5 then
        let s1 := { s with pinAttempts := attempts,
                           pinLockoutUntil := some (env.nowMs + 5 * 60 * 1000),
                           step := .IDLE, pendingMandate := .vnull }
        ⟨s1, [], false, false⟩
      else
        ⟨{ s with pinAttempts := attempts }, [], false, false⟩
  else if s.step = .AWAITING_MULTISIG ∧ upperStr t = "APPROVE" then
    let (s1, met) := multisigBranch s
    ⟨s1, [], met, false⟩
  else if s.step = .AWAITING_MANDATE_APPROVAL ∧ upperStr t = "APPROVE" then
    ⟨{ s with step := .IDLE }, [], false, false⟩
  else if (s.step = .IDLE) ∧ t.length > 5
      ∧ (strIncludes (lowerStr t) "pay" || strIncludes (lowerStr t) "send"
          || strIncludes (lowerStr t) "transfer" || strIncludes (lowerStr t) "mnee") then
    ⟨s, [], false, true⟩
  else
    ⟨s, [], false, false⟩

/-! ## GeminiAuditor (`agent/src/AuditLogger.ts`, `GeminiAuditor` class)

`auditMandate` first runs the local velocity check and only then calls
the external capability. The external call's outcome (a parsed
`{approved, reason, riskScore}` object, or a thrown error classified by
whether its message reports a 429) is an oracle input; the embedding
records whether that input was consulted. -/

structure PolicyDecision where
  approved : Bool
  reason : String
  riskScore : ℚ
deriving Repr, DecidableEq

structure AuditorState where
  hourlyVolume : ℚ
  lastVolumeReset : ℕ
deriving Repr, DecidableEq

/-- Outcome of `generateWithRetry` + JSON parsing as seen by
`auditMandate`: a parsed decision, or a failure whose message does or
does not report a 429 rate limit. -/
inductive ExtResult where
  | ok (approved : Bool) (reason : String) (riskScore : ℚ)
  | fail (is429 : Bool)
deriving Repr, DecidableEq

/-- The hourly corporate limit (`const LIMIT = 1000000`). -/
def hourlyLimit : ℚ := 1000000

/-- Markdown cleanup applied to a truthy `parsed.reason`:
`reason.replace(/\*\*/g, '').replace(/\*/g, '').trim()`. -/
def stripStars (r : String) : String :=
  if r = "" then r else ((r.replace "**" "").replace "*" "").trim

/-- The fallback flag test
`mandate.recipient?.toLowerCase().includes('suspicious')`. -/
def flaggedRecipient (recipient : String) : Bool :=
  strIncludes (lowerStr recipient) "suspicious"

structure AuditResult where
  decision : PolicyDecision
  state : AuditorState
  consultedExternal : Bool
deriving Repr, DecidableEq

def velocityReason : String :=
  "VELOCITY VIOLATION: Hourly corporate limit of 1000000 MNEE exceeded. This is a protective measure against drainage."

/-- The `try`/`catch` body of `auditMandate` after the velocity check:
handle the external call's outcome (parse result, 429 fail-closed denial,
or the amount-based fallback heuristic). -/
def auditExternal (st1 : AuditorState) (amount : ℚ) (recipient : String) :
    ExtResult → PolicyDecision × AuditorState
  | .ok approved reason riskScore =>
    (⟨approved, stripStars reason, riskScore⟩,
      if approved then
        { st1 with hourlyVolume := st1.hourlyVolume + amount }
      else
        st1)
  | .fail true =>
    (⟨false, "System Busy (Global Rate Limit). Please wait 1 minute and try again.", 0⟩, st1)
  | .fail false =>
    if amount ≤ 100 ∧ ¬ flaggedRecipient recipient then
      (⟨true, "Auto-approved: Low-risk transaction (Auditor offline)", 20⟩, st1)
    else
      (⟨false, "Transaction held for manual review (Auditor temporarily offline)", 50⟩, st1)

/-- The window-reset step at the top of `auditMandate`: zero the counter
when more than an hour has passed since the last reset. -/
def resetVolState (st : AuditorState) (nowMs : ℕ) : AuditorState :=
  if nowMs - st.lastVolumeReset > 3600000 then ⟨0, nowMs⟩ else st

/-- The rolling-hour approved volume `auditMandate` compares against the
limit (the counter after the window-reset step). -/
def effectiveVolume (st : AuditorState) (nowMs : ℕ) : ℚ :=
  (resetVolState st nowMs).hourlyVolume

/-- `GeminiAuditor.auditMandate`. `nowMs` is `Date.now()`; `amount` is
`parseFloat(mandate.amount)`. The external outcome `ext` is only reached
(`consultedExternal`) when the velocity check passes. -/
def auditMandate (st : AuditorState) (nowMs : ℕ) (amount : ℚ)
    (recipient : String) (ext : ExtResult) : AuditResult :=
  if effectiveVolume st nowMs + amount > hourlyLimit then
    ⟨⟨false, velocityReason, 90⟩, resetVolState st nowMs, false⟩
  else
    ⟨(auditExternal (resetVolState st nowMs) amount recipient ext).1,
      (auditExternal (resetVolState st nowMs) amount recipient ext).2, true⟩

/-! ## Capability-pool retry loops

`GeminiAgent.generateWithRetry` (the Intent Resolver's pool) and
`GeminiAuditor.generateWithRetry` (the Policy Auditor's pool) differ:
the embeddings below capture, for one failed attempt, how each loop
updates its rotation cursor, whether it sleeps, and whether it rethrows. -/

inductive ErrKind where
  | e429
  | e503
  | e404
  | other
deriving Repr, DecidableEq

/-- Outcome of handling one failed attempt: the new rotation cursor, an
optional backoff delay (ms) slept before the next attempt, and whether
the error is rethrown (terminating the loop). -/
structure RetryOutcome where
  cursor : ℕ
  delayMs : Option ℕ
  propagate : Bool
deriving Repr, DecidableEq

/-- `GeminiAgent.generateWithRetry`, error branch of attempt `i` (of
`retries`, default 14): 429, 503 and 404 all rotate the cursor; 404 and
429 retry immediately, 503 additionally sleeps `2^i * 1000` ms; any other
error (or the last attempt) rethrows. -/
def agentRetryStep (numModels cursor i retries : ℕ) (k : ErrKind) : RetryOutcome :=
  let isRateLimit := k = .e429
  let isOverloaded := k = .e503
  let isNotFound := k = .e404
  if (isRateLimit ∨ isOverloaded ∨ isNotFound) ∧ i < retries - 1 then
    let c := (cursor + 1) % numModels
    if isNotFound then
      ⟨c, none, false⟩
    else if isRateLimit then
      ⟨c, none, false⟩
    else
      ⟨c, some (2 ^ i * 1000), false⟩
  else
    ⟨cursor, none, true⟩

/-- `GeminiAuditor.generateWithRetry`, error branch of attempt `i`: only
429 and 503 are retried; a 429 with more than one pool entry rotates the
cursor and retries immediately, anything else retried (503, or 429 with a
single entry) sleeps `2^i * 1000` ms with the cursor unchanged; 404 and
other errors (or the last attempt) rethrow. -/
def auditorRetryStep (numModels cursor i retries : ℕ) (k : ErrKind) : RetryOutcome :=
  let isRateLimit := k = .e429
  let isOverloaded := k = .e503
  if (isRateLimit ∨ isOverloaded) ∧ i < retries - 1 then
    if isRateLimit ∧ numModels > 1 then
      ⟨(cursor + 1) % numModels, none, false⟩
    else
      ⟨cursor, some (2 ^ i * 1000), false⟩
  else
    ⟨cursor, none, true⟩

/-! ## MNEEEscrow (`contracts/contracts/Escrow.sol`)

`releaseFunds` with revert-as-`Except` semantics. The token is an ERC-20
balance map; a `transfer` from the escrow contract succeeds iff the
contract's balance covers the amount. `keccak256(abi.encodePacked _)` on
the revealed proof string is an arbitrary function parameter `h`. -/

inductive EscrowStatus where
  | ACTIVE
  | COMPLETED
  | REFUNDED
  | DISPUTED
deriving Repr, DecidableEq

structure EscrowRecord where
  buyer : String
  seller : String
  amount : ℕ
  proofCommitment : ℕ
  deadline : ℕ
  status : EscrowStatus
deriving Repr, DecidableEq

/-- Contract state: the `escrows` storage mapping (missing keys read as
the zero record, as in Solidity) and the MNEE token balances. -/
structure EscrowState where
  escrows : List (ℕ × EscrowRecord)
  balances : String → ℕ
  self : String

/-- Solidity zero value of the `Escrow` struct (status reads as
`ACTIVE`, the enum's first member). -/
def zeroEscrow : EscrowRecord := ⟨"0x0", "0x0", 0, 0, 0, .ACTIVE⟩

def getEscrow (st : EscrowState) (escrowId : ℕ) : EscrowRecord :=
  match st.escrows.lookup escrowId with
  | some e => e
  | none => zeroEscrow

def setEscrow (st : EscrowState) (escrowId : ℕ) (e : EscrowRecord) : EscrowState :=
  { st with escrows := (escrowId, e) :: st.escrows.eraseP (fun p => p.1 = escrowId) }

/-- ERC-20 `transfer(to, amount)` from the escrow contract: fails
(returns `false`, making the surrounding `require` revert) iff the
contract balance is insufficient. -/
def tokenTransfer (st : EscrowState) (dest : String) (amount : ℕ) : Option EscrowState :=
  if st.balances st.self < amount then
    none
  else
    let afterDebit : String → ℕ :=
      fun a => if a = st.self then st.balances a - amount else st.balances a
    let afterCredit : String → ℕ :=
      fun a => if a = dest then afterDebit a + amount else afterDebit a
    some { st with balances := afterCredit }

/-- `MNEEEscrow.releaseFunds(_escrowId, _proofData)`; `h` models
`keccak256(abi.encodePacked ·)`. A `require` failure reverts the whole
call, returning the error string and leaving the pre-state untouched. -/
def releaseFunds (h : String → ℕ) (st : EscrowState) (escrowId : ℕ)
    (proofData : String) : Except String EscrowState :=
  let escrow := getEscrow st escrowId
  if escrow.status ≠ .ACTIVE then
    .error "Escrow not active"
  else if h proofData ≠ escrow.proofCommitment then
    .error "Invalid proof"
  else
    let st1 := setEscrow st escrowId { escrow with status := .COMPLETED }
    match tokenTransfer st1 escrow.seller escrow.amount with
    | none => .error "Transfer failed"
    | some st2 => .ok st2

/-! ## Helper lemmas -/

theorem truthy_vnull : JValue.truthy .vnull = false := rfl

theorem jor_truthy_false {a : JValue} (h : a.truthy = false) (b : JValue) :
    jor a b = b := by
  simp [jor, h]

/-! ## Claims -/

/-- Claim C2: in the production PIN-confirmed path the settled amount is
read from the stored pending mandate's top-level `amount` field with
fallback `'50'`; since `createMandate` returns `{mandate, signature,
hash}` with no top-level `amount`, every PIN-confirmed production payment
for a mandate created by `createMandate` executes a transfer of exactly
50 units, regardless of the approved intent's amount. -/
theorem c2_pin_confirmed_transfer_is_50
    (env : Env) (t : String) (intent : JValue) (rc pa : ℕ) (mode : Mode)
    (sa sk amt : String) (ttl nowSec : ℤ) (nonce : ℕ) (conds : List String) :
    (textHandler env t true
      ⟨.AWAITING_PIN, createMandate sa sk amt ttl nonce nowSec conds,
        intent, rc, pa, none, mode⟩).execCalls
      = [⟨resolveRecipient intent, "50", true⟩] := rfl

/-- Claim C7 fails on the code: the `TYPES` table omits `conditions`, so
two mandates identical except for their conditions lists receive the
same signature and the same content hash. -/
def c7MandateA : JValue := createMandate "0xAgentAddr" "key1" "100" 3600 5 1000 []

def c7MandateB : JValue :=
  createMandate "0xAgentAddr" "key1" "100" 3600 5 1000 ["UPTIME > 99%"]

/-- Claim C7, counterexample: two mandates identical except for their
conditions list yield the same signature and the same `contentHash`,
refuting the claim that they differ. -/
theorem c7_same_signature_despite_conditions :
    c7MandateA.get "signature" = c7MandateB.get "signature"
    ∧ c7MandateA.get "hash" = c7MandateB.get "hash"
    ∧ ((c7MandateA.get "mandate").get "conditions").asStringList = some []
    ∧ ((c7MandateB.get "mandate").get "conditions").asStringList
        = some ["UPTIME > 99%"] :=
  ⟨rfl, rfl, rfl, rfl⟩

/-- Claim C7, amended: `createMandate` produces its signature and
`contentHash` over the payload `{agent, maxAmount, expiry, nonce}` under
the fixed domain separator; the conditions list is stored on the mandate
object but does not enter the signed payload, so two mandates identical
except for their conditions yield identical signatures and identical
content hashes. -/
theorem c7_signature_covers_typed_fields_only
    (sa sk amt : String) (ttl nowSec : ℤ) (nonce : ℕ) (c1 c2 : List String) :
    (createMandate sa sk amt ttl nonce nowSec c1).get "signature"
      = (createMandate sa sk amt ttl nonce nowSec c2).get "signature"
    ∧ (createMandate sa sk amt ttl nonce nowSec c1).get "hash"
      = (createMandate sa sk amt ttl nonce nowSec c2).get "hash"
    ∧ (createMandate sa sk amt ttl nonce nowSec c1).get "hash"
      = .vstr (eip712Hash DOMAIN
          ((createMandate sa sk amt ttl nonce nowSec c1).get "mandate")) :=
  ⟨rfl, rfl, rfl⟩

/-- Claim C10: whenever an approval or a PIN-confirmed execution proceeds
for a pending intent with no resolved address and a recipient name the
vendor registry cannot resolve, the transfer targets the hardcoded
fallback address `0xE357CFDd3EEC59dE39CA315b9667d36E3b3bBf96` instead of
failing. -/
theorem c10_unresolved_recipient_uses_fallback
    (env : Env) (fromId : ℕ) (t : String) (intent pm : JValue) (rc pa : ℕ)
    (haddr : (intent.get "address").truthy = false)
    (hvendor : vendorGetAddress
        (jsToString (jor (intent.get "recipient") (.vstr ""))) = none) :
    resolveRecipient intent = fallbackRecipient
    ∧ (pm.truthy = true →
        (approveCallback env fromId
          ⟨.AWAITING_MANDATE_APPROVAL, pm, intent, rc, pa, none, .DEMO⟩).execCalls
          = [⟨fallbackRecipient, approveAmount pm intent, false⟩])
    ∧ (pm.truthy = true →
        (textHandler env t true
          ⟨.AWAITING_PIN, pm, intent, rc, pa, none, .PRODUCTION⟩).execCalls
          = [⟨fallbackRecipient, pinResumeAmount pm, true⟩]) := by
  have hres : resolveRecipient intent = fallbackRecipient := by
    unfold resolveRecipient
    rw [hvendor, jor_truthy_false haddr]
    rfl
  refine ⟨hres, ?_, ?_⟩
  · intro hpm
    simp [approveCallback, executeTransaction, hpm, hres]
  · intro hpm
    simp [textHandler, lockedOut, executeTransaction, hpm, hres]

def c10Intent : JValue :=
  .vobj [("recipient", .vstr "Unknown Shop Ltd"), ("amount", .vnum 75)]

def c10Mandate : JValue := createMandate "0xAgentAddr" "key1" "75" 3600 9 2000 []

/-- Claim C10, witness: a concrete unverified recipient with no resolved
address is settled to the fallback address on both paths. -/
theorem c10_unresolved_recipient_uses_fallback_witness :
    resolveRecipient c10Intent = fallbackRecipient
    ∧ (approveCallback ⟨0, true, true⟩ 1
        ⟨.AWAITING_MANDATE_APPROVAL, c10Mandate, c10Intent, 0, 0, none, .DEMO⟩).execCalls
        = [⟨fallbackRecipient, approveAmount c10Mandate c10Intent, false⟩]
    ∧ (textHandler ⟨0, true, true⟩ "1234" true
        ⟨.AWAITING_PIN, c10Mandate, c10Intent, 0, 0, none, .PRODUCTION⟩).execCalls
        = [⟨fallbackRecipient, pinResumeAmount c10Mandate, true⟩] := by
  have h := c10_unresolved_recipient_uses_fallback ⟨0, true, true⟩ 1 "1234"
    c10Intent c10Mandate 0 0 (by decide) (by decide)
  exact ⟨h.1, h.2.1 (by decide), h.2.2 (by decide)⟩

/-- Claim C4: if the rolling-hour approved volume plus the intent's
amount strictly exceeds the hourly limit, `auditMandate` denies with the
velocity-violation reason and riskScore 90 without consulting the
external capability (the result is the same for every external outcome);
when the sum equals the limit exactly, the velocity check passes and the
external check is consulted. -/
theorem c4_velocity_boundary
    (st : AuditorState) (nowMs : ℕ) (amount : ℚ) (recipient : String) :
    (effectiveVolume st nowMs + amount > hourlyLimit →
      ∀ ext ext₂ : ExtResult,
        (auditMandate st nowMs amount recipient ext).decision
          = ⟨false, velocityReason, 90⟩
        ∧ (auditMandate st nowMs amount recipient ext).consultedExternal = false
        ∧ auditMandate st nowMs amount recipient ext
            = auditMandate st nowMs amount recipient ext₂)
    ∧ (effectiveVolume st nowMs + amount = hourlyLimit →
      ∀ ext : ExtResult,
        (auditMandate st nowMs amount recipient ext).consultedExternal = true) := by
  constructor
  · intro h ext ext₂
    simp [auditMandate, h]
  · intro h ext
    simp [auditMandate, h]

/-- Claim C4, witness: with 999,999 of the hourly 1,000,000 consumed, a
2-unit intent is denied at riskScore 90 without the external check; with
999,950 consumed, a 50-unit intent (hitting the limit exactly) reaches
the external check. -/
theorem c4_velocity_boundary_witness :
    ((auditMandate ⟨999999, 0⟩ 1000 2 "AWS Web Services" (.fail false)).decision
        = ⟨false, velocityReason, 90⟩)
    ∧ (auditMandate ⟨999950, 0⟩ 1000 50 "AWS Web Services" (.fail false)).consultedExternal
        = true := by
  have h1 := (c4_velocity_boundary ⟨999999, 0⟩ 1000 2 "AWS Web Services").1
    (by norm_num [effectiveVolume, resetVolState, hourlyLimit]) (.fail false) (.fail false)
  have h2 := (c4_velocity_boundary ⟨999950, 0⟩ 1000 50 "AWS Web Services").2
    (by norm_num [effectiveVolume, resetVolState, hourlyLimit]) (.fail false)
  exact ⟨h1.1, h2⟩

/-- Claim C3 fails on the code at the threshold boundary: with the
external auditor failing for a non-429 reason, an intent of exactly 100
units (not strictly below the 100-unit threshold) from an unflagged
recipient is auto-approved with risk score 20, while the claim's
"exactly when the amount is below the threshold" would deny it. -/
theorem c3_threshold_is_inclusive_counterexample :
    (auditMandate ⟨0, 0⟩ 0 100 "AWS Web Services" (.fail false)).decision
      = ⟨true, "Auto-approved: Low-risk transaction (Auditor offline)", 20⟩
    ∧ ¬ ((100 : ℚ) < 100) := by
  have hf : flaggedRecipient "AWS Web Services" = false := by decide
  refine ⟨?_, by norm_num⟩
  norm_num [auditMandate, auditExternal, effectiveVolume, resetVolState,
    hourlyLimit, hf]

/-- Claim C3, amended: when the external policy check fails,
`auditMandate` still returns a decision: a 429 (capability exhaustion)
failure denies outright; any other failure approves with risk score 20
exactly when the amount is at most 100 units (inclusive) and the
recipient is not flagged, and otherwise denies for manual review with
risk score 50; this fallback never approves an intent above 100 units or
with a flagged recipient. -/
theorem c3_fallback_fail_closed
    (st : AuditorState) (nowMs : ℕ) (amount : ℚ) (recipient : String)
    (hvel : ¬ (effectiveVolume st nowMs + amount > hourlyLimit)) :
    ((auditMandate st nowMs amount recipient (.fail true)).decision.approved = false)
    ∧ ((auditMandate st nowMs amount recipient (.fail false)).decision
        = if amount ≤ 100 ∧ ¬ flaggedRecipient recipient
          then ⟨true, "Auto-approved: Low-risk transaction (Auditor offline)", 20⟩
          else ⟨false, "Transaction held for manual review (Auditor temporarily offline)", 50⟩)
    ∧ (amount > 100 ∨ flaggedRecipient recipient = true →
        (auditMandate st nowMs amount recipient (.fail false)).decision.approved = false) := by
  refine ⟨by simp [auditMandate, auditExternal, hvel], ?_, ?_⟩ <;>
    by_cases hlow : amount ≤ 100 ∧ flaggedRecipient recipient = false
  · simp [auditMandate, auditExternal, hvel, hlow]
  · simp [auditMandate, auditExternal, hvel, hlow]
  · intro hbad
    exfalso
    rcases hbad with hbig | hflag
    · exact absurd hlow.1 (by linarith)
    · exact absurd hflag (by simp [hlow.2])
  · intro _
    simp [auditMandate, auditExternal, hvel, hlow]

/-- Claim C3, amended, witness: with a fresh counter, a 100-unit intent
to an unflagged recipient is auto-approved, a 101-unit intent is held
for review, a flagged recipient is held for review, and a 429 failure
denies. -/
theorem c3_fallback_fail_closed_witness :
    ((auditMandate ⟨0, 0⟩ 0 100 "AWS Web Services" (.fail true)).decision.approved = false)
    ∧ ((auditMandate ⟨0, 0⟩ 0 101 "AWS Web Services" (.fail false)).decision.approved = false)
    ∧ ((auditMandate ⟨0, 0⟩ 0 50 "Suspicious Vendor Ltd" (.fail false)).decision.approved = false) := by
  have h1 := (c3_fallback_fail_closed ⟨0, 0⟩ 0 100 "AWS Web Services"
    (by norm_num [effectiveVolume, resetVolState, hourlyLimit])).1
  have h2 := (c3_fallback_fail_closed ⟨0, 0⟩ 0 101 "AWS Web Services"
    (by norm_num [effectiveVolume, resetVolState, hourlyLimit])).2.2 (by norm_num)
  have h3 := (c3_fallback_fail_closed ⟨0, 0⟩ 0 50 "Suspicious Vendor Ltd"
    (by norm_num [effectiveVolume, resetVolState, hourlyLimit])).2.2 (Or.inr (by decide))
  exact ⟨h1, h2, h3⟩

/-- Claim C9 fails on the code: in the Intent Resolver's pool
(`GeminiAgent.generateWithRetry`), a transient-overload (503) failure
advances the rotation cursor before backing off, so a different entry is
retried — the claim's "cursor unchanged so the same entry is retried"
does not hold there. -/
theorem c9_agent_503_advances_cursor :
    (agentRetryStep 21 0 0 14 .e503).cursor = 1
    ∧ (agentRetryStep 21 0 0 14 .e503).delayMs = some 1000
    ∧ (1 : ℕ) ≠ 0 := by decide

/-- Claim C9, amended: in the Intent Resolver's pool a 503 advances the
cursor and backs off exponentially (2^attempt × 1000 ms), while 429 and
404 advance the cursor immediately with no backoff; in the Policy
Auditor's pool a 503 is retried after the exponential backoff with the
cursor unchanged, a 429 (with more than one pool entry) advances the
cursor immediately with no backoff, and a 404 is not retried but
propagates; in both pools any other error propagates. -/
theorem c9_retry_rotation_policy (numModels cursor i retries : ℕ)
    (hi : i < retries - 1) :
    agentRetryStep numModels cursor i retries .e503
      = ⟨(cursor + 1) % numModels, some (2 ^ i * 1000), false⟩
    ∧ agentRetryStep numModels cursor i retries .e429
      = ⟨(cursor + 1) % numModels, none, false⟩
    ∧ agentRetryStep numModels cursor i retries .e404
      = ⟨(cursor + 1) % numModels, none, false⟩
    ∧ auditorRetryStep numModels cursor i retries .e503
      = ⟨cursor, some (2 ^ i * 1000), false⟩
    ∧ (numModels > 1 →
        auditorRetryStep numModels cursor i retries .e429
          = ⟨(cursor + 1) % numModels, none, false⟩)
    ∧ auditorRetryStep numModels cursor i retries .e404 = ⟨cursor, none, true⟩
    ∧ agentRetryStep numModels cursor i retries .other = ⟨cursor, none, true⟩
    ∧ auditorRetryStep numModels cursor i retries .other = ⟨cursor, none, true⟩ := by
  refine ⟨?_, ?_, ?_, ?_, ?_, ?_, ?_, ?_⟩ <;>
    simp [agentRetryStep, auditorRetryStep, hi]

/-- Claim C9, amended, witness: the characterization evaluated at the
first attempt of a 21-entry pool with the 14-attempt budget. -/
theorem c9_retry_rotation_policy_witness :
    agentRetryStep 21 5 0 14 .e503 = ⟨6, some 1000, false⟩
    ∧ auditorRetryStep 21 5 0 14 .e503 = ⟨5, some 1000, false⟩
    ∧ auditorRetryStep 21 5 0 14 .e429 = ⟨6, none, false⟩
    ∧ auditorRetryStep 21 5 0 14 .e404 = ⟨5, none, true⟩ := by
  have h := c9_retry_rotation_policy 21 5 0 14 (by decide)
  exact ⟨h.1, h.2.2.2.1, h.2.2.2.2.1 (by decide), h.2.2.2.2.2.1⟩

/-- Claim C5: in the PIN verification state, a submission during an
active lockout is rejected without consulting the stored hash (the
outcome is the same whether the PIN is right or wrong) and without
consuming an attempt; an incorrect submission increments `pinAttempts`,
and the one that reaches 5 sets a 5-minute lockout, discards the pending
mandate and leaves the PIN state; an incorrect submission below the
threshold keeps the session awaiting the PIN with no lockout; a correct
submission resets `pinAttempts` to 0 and clears the lockout. -/
theorem c5_pin_lockout_semantics
    (env : Env) (t : String) (pinValid : Bool) (s : SessionData)
    (hstep : s.step = .AWAITING_PIN) :
    (lockedOut s env.nowMs = true →
      textHandler env t pinValid s = ⟨s, [], false, false⟩
      ∧ textHandler env t true s = textHandler env t false s)
    ∧ (lockedOut s env.nowMs = false → pinValid = false →
        (textHandler env t pinValid s).session.pinAttempts = s.pinAttempts + 1)
    ∧ (lockedOut s env.nowMs = false → s.pinAttempts + 1 ≥ 5 →
        (textHandler env t false s).session.pinLockoutUntil
          = some (env.nowMs + 5 * 60 * 1000)
        ∧ (textHandler env t false s).session.pendingMandate = .vnull
        ∧ (textHandler env t false s).session.step = .IDLE)
    ∧ (lockedOut s env.nowMs = false → s.pinAttempts + 1 < 5 →
        (textHandler env t false s).session.pinLockoutUntil = s.pinLockoutUntil
        ∧ (textHandler env t false s).session.step = .AWAITING_PIN
        ∧ (textHandler env t false s).session.pendingMandate = s.pendingMandate)
    ∧ (lockedOut s env.nowMs = false →
        (textHandler env t true s).session.pinAttempts = 0
        ∧ (textHandler env t true s).session.pinLockoutUntil = none) := by
  refine ⟨?_, ?_, ?_, ?_, ?_⟩
  · intro hl
    constructor <;> simp [textHandler, hstep, hl]
  · intro hl hv
    subst hv
    by_cases h5 : s.pinAttempts + 1 ≥ 5 <;>
      simp [textHandler, hstep, hl, h5]
  · intro hl h5
    simp [textHandler, hstep, hl, h5]
  · intro hl h5
    have h5n : ¬ (s.pinAttempts + 1 ≥ 5) := by omega
    simp [textHandler, hstep, hl, h5n]
  · intro hl
    by_cases hm : s.pendingMandate.truthy <;>
      simp [textHandler, executeTransaction, hstep, hl, hm]

/-- Claim C5, witness: a locked-out session rejects a correct PIN
unchanged; an incorrect attempt increments the counter; the 5th failure
locks for 5 minutes and drops the mandate; a correct attempt resets. -/
theorem c5_pin_lockout_semantics_witness :
    (textHandler ⟨5000, true, true⟩ "1234" true
        ⟨.AWAITING_PIN, .vobj [], .vundefined, 0, 2, some 10000, .PRODUCTION⟩
      = ⟨⟨.AWAITING_PIN, .vobj [], .vundefined, 0, 2, some 10000, .PRODUCTION⟩, [], false, false⟩)
    ∧ ((textHandler ⟨5000, true, true⟩ "1234" false
        ⟨.AWAITING_PIN, .vobj [], .vundefined, 0, 1, none, .PRODUCTION⟩).session.pinAttempts = 2)
    ∧ ((textHandler ⟨5000, true, true⟩ "1234" false
        ⟨.AWAITING_PIN, .vobj [], .vundefined, 0, 4, none, .PRODUCTION⟩).session.pinLockoutUntil
          = some (5000 + 5 * 60 * 1000))
    ∧ ((textHandler ⟨5000, true, true⟩ "1234" true
        ⟨.AWAITING_PIN, .vobj [], .vundefined, 0, 3, none, .PRODUCTION⟩).session.pinAttempts = 0) := by
  have h1 := (c5_pin_lockout_semantics ⟨5000, true, true⟩ "1234" true
    ⟨.AWAITING_PIN, .vobj [], .vundefined, 0, 2, some 10000, .PRODUCTION⟩ rfl).1 (by decide)
  have h2 := (c5_pin_lockout_semantics ⟨5000, true, true⟩ "1234" false
    ⟨.AWAITING_PIN, .vobj [], .vundefined, 0, 1, none, .PRODUCTION⟩ rfl).2.1 (by decide) rfl
  have h3 := (c5_pin_lockout_semantics ⟨5000, true, true⟩ "1234" false
    ⟨.AWAITING_PIN, .vobj [], .vundefined, 0, 4, none, .PRODUCTION⟩ rfl).2.2.1 (by decide) (by decide)
  have h4 := (c5_pin_lockout_semantics ⟨5000, true, true⟩ "1234" true
    ⟨.AWAITING_PIN, .vobj [], .vundefined, 0, 3, none, .PRODUCTION⟩ rfl).2.2.2.2 (by decide)
  exact ⟨h1.1, h2, h3.1, h4.1⟩

/-- Claim C6 fails on the code: the multisig branch counts every approval
action without recording who approved, so two approval actions by the
same approver (id 7 both times) reach the quorum and trigger the
execution message. -/
theorem c6_same_approver_reaches_quorum :
    ((approveCallback ⟨0, true, true⟩ 7
        ⟨.AWAITING_MULTISIG, .vnull, .vundefined, 0, 0, none, .PRODUCTION⟩).session.reactionCount = 1)
    ∧ ((approveCallback ⟨0, true, true⟩ 7
        ⟨.AWAITING_MULTISIG, .vnull, .vundefined, 0, 0, none, .PRODUCTION⟩).thresholdMet = false)
    ∧ ((approveCallback ⟨0, true, true⟩ 7
        (approveCallback ⟨0, true, true⟩ 7
          ⟨.AWAITING_MULTISIG, .vnull, .vundefined, 0, 0, none, .PRODUCTION⟩).session).thresholdMet
        = true) := by
  refine ⟨rfl, rfl, rfl⟩

/-- Claim C6, amended: in the `AWAITING_MULTISIG` state every approval
action increments `quorumCount` regardless of the approver's identity
(the handler's result does not depend on who clicked); the threshold
outcome fires exactly when the count reaches 2 while a count of 1 leaves
the session in `AWAITING_MULTISIG`; in particular two approval actions
by the same approver do satisfy the quorum. -/
theorem c6_multisig_quorum_counting
    (env env₂ : Env) (fromId fromId₂ : ℕ) (s : SessionData)
    (hstep : s.step = .AWAITING_MULTISIG) :
    approveCallback env fromId s = approveCallback env₂ fromId₂ s
    ∧ (s.reactionCount = 0 →
        (approveCallback env fromId s).session.step = .AWAITING_MULTISIG
        ∧ (approveCallback env fromId s).session.reactionCount = 1
        ∧ (approveCallback env fromId s).thresholdMet = false)
    ∧ (s.reactionCount + 1 ≥ 2 →
        (approveCallback env fromId s).thresholdMet = true
        ∧ (approveCallback env fromId s).session.step = .IDLE
        ∧ (approveCallback env fromId s).session.reactionCount = 0)
    ∧ (s.reactionCount + 1 < 2 →
        (approveCallback env fromId s).thresholdMet = false
        ∧ (approveCallback env fromId s).session.step = .AWAITING_MULTISIG
        ∧ (approveCallback env fromId s).session.reactionCount
            = s.reactionCount + 1) := by
  refine ⟨by simp [approveCallback, hstep], ?_, ?_, ?_⟩
  · intro h0
    simp [approveCallback, multisigBranch, hstep, h0]
  · intro h2
    simp [approveCallback, multisigBranch, hstep, h2]
  · intro h2
    have h2n : ¬ (s.reactionCount + 1 ≥ 2) := by omega
    simp [approveCallback, multisigBranch, hstep, h2n]

/-- Claim C6, amended, witness: the quorum counting evaluated on a fresh
multisig session. -/
theorem c6_multisig_quorum_counting_witness :
    ((approveCallback ⟨0, true, true⟩ 7
        ⟨.AWAITING_MULTISIG, .vnull, .vundefined, 0, 0, none, .DEMO⟩).session.reactionCount = 1)
    ∧ ((approveCallback ⟨0, true, true⟩ 7
        ⟨.AWAITING_MULTISIG, .vnull, .vundefined, 1, 0, none, .DEMO⟩).thresholdMet = true) := by
  have h1 := (c6_multisig_quorum_counting ⟨0, true, true⟩ ⟨0, true, true⟩ 7 7
    ⟨.AWAITING_MULTISIG, .vnull, .vundefined, 0, 0, none, .DEMO⟩ rfl).2.1 rfl
  have h2 := (c6_multisig_quorum_counting ⟨0, true, true⟩ ⟨0, true, true⟩ 7 7
    ⟨.AWAITING_MULTISIG, .vnull, .vundefined, 1, 0, none, .DEMO⟩ rfl).2.2.1 (by decide)
  exact ⟨h1.2.1, h2.1⟩

/-- A mandate whose `expiry` (4600 s) lies far in the past relative to
the session clock below. -/
def c1MandateData : JValue := createMandate "0xAgentAddr" "key1" "500" 3600 42 1000 []

def c1Session : SessionData :=
  ⟨.AWAITING_PIN, c1MandateData,
    .vobj [("recipient", .vstr "Unknown Shop Ltd"), ("amount", .vnum 500)],
    0, 0, none, .PRODUCTION⟩

/-- `Date.now()` far past the mandate's expiry (10^12 ms ≫ 4600 s). -/
def c1Env : Env := ⟨1000000000000, true, true⟩

/-- Claim C1 describes intended behaviour the handlers do not implement:
no handler ever reads the pending mandate's `expiry`, so a session
holding a mandate whose expiry (4600 s) is far before the current time
(10^9 s) still executes the production settlement transfer on a correct
PIN, instead of expiring and discarding the mandate. -/
theorem c1_expired_mandate_still_settles :
    jsToString ((c1MandateData.get "mandate").get "expiry") = "4600"
    ∧ 4600 * 1000 < c1Env.nowMs
    ∧ (textHandler c1Env "7777" true c1Session).execCalls
        = [⟨fallbackRecipient, "50", true⟩]
    ∧ (textHandler c1Env "7777" true c1Session).session.step = .IDLE := by
  refine ⟨rfl, by decide, rfl, rfl⟩

/-- Claim C8: `releaseFunds` succeeds exactly when the escrow is
`ACTIVE`, the revealed proof data hashes to the stored commitment, and
the token transfer to the seller succeeds (the contract holds the
amount); on success the escrow becomes `COMPLETED` and the amount is
credited to the seller; otherwise the call reverts, leaving the
pre-state untouched. -/
theorem c8_release_funds_characterization (h : String → ℕ) (st : EscrowState)
    (escrowId : ℕ) (proofData : String) :
    ((∃ st2, releaseFunds h st escrowId proofData = .ok st2) ↔
      ((getEscrow st escrowId).status = .ACTIVE
        ∧ h proofData = (getEscrow st escrowId).proofCommitment
        ∧ (getEscrow st escrowId).amount ≤ st.balances st.self))
    ∧ (∀ st2, releaseFunds h st escrowId proofData = .ok st2 →
        (getEscrow st2 escrowId).status = .COMPLETED
        ∧ ((getEscrow st escrowId).seller ≠ st.self →
            st2.balances (getEscrow st escrowId).seller
              = st.balances (getEscrow st escrowId).seller
                + (getEscrow st escrowId).amount))
    ∧ (¬ ((getEscrow st escrowId).status = .ACTIVE
          ∧ h proofData = (getEscrow st escrowId).proofCommitment
          ∧ (getEscrow st escrowId).amount ≤ st.balances st.self) →
        ∃ e, releaseFunds h st escrowId proofData = .error e) := by
  by_cases h1 : (getEscrow st escrowId).status = .ACTIVE
  · by_cases h2 : h proofData = (getEscrow st escrowId).proofCommitment
    · by_cases h3 : (getEscrow st escrowId).amount ≤ st.balances st.self
      · have hok : releaseFunds h st escrowId proofData
            = .ok { setEscrow st escrowId
                      { getEscrow st escrowId with status := .COMPLETED } with
                    balances := fun a =>
                      if a = (getEscrow st escrowId).seller then
                        (if a = st.self then
                            st.balances a - (getEscrow st escrowId).amount
                          else st.balances a) + (getEscrow st escrowId).amount
                      else
                        if a = st.self then
                          st.balances a - (getEscrow st escrowId).amount
                        else st.balances a } := by
          simp [releaseFunds, tokenTransfer, setEscrow, h1, h2, not_lt.mpr h3]
        refine ⟨?_, ?_, ?_⟩
        · exact ⟨fun _ => ⟨h1, h2, h3⟩, fun _ => ⟨_, hok⟩⟩
        · intro st2 hok2
          rw [hok] at hok2
          cases hok2
          constructor
          · simp [getEscrow, setEscrow]
          · intro hne
            simp [setEscrow, hne]
        · intro hbad
          exact absurd ⟨h1, h2, h3⟩ hbad
      · have herr : releaseFunds h st escrowId proofData = .error "Transfer failed" := by
          simp [releaseFunds, tokenTransfer, setEscrow, h1, h2, not_le.mp h3]
        refine ⟨?_, ?_, ?_⟩
        · constructor
          · intro hex
            rcases hex with ⟨st2, hok2⟩
            rw [herr] at hok2
            cases hok2
          · intro hall
            exact absurd hall.2.2 h3
        · intro st2 hok2
          rw [herr] at hok2
          cases hok2
        · intro _
          exact ⟨_, herr⟩
    · have herr : releaseFunds h st escrowId proofData = .error "Invalid proof" := by
        simp [releaseFunds, h1, h2]
      refine ⟨?_, ?_, ?_⟩
      · constructor
        · intro hex
          rcases hex with ⟨st2, hok2⟩
          rw [herr] at hok2
          cases hok2
        · intro hall
          exact absurd hall.2.1 h2
      · intro st2 hok2
        rw [herr] at hok2
        cases hok2
      · intro _
        exact ⟨_, herr⟩
  · have herr : releaseFunds h st escrowId proofData = .error "Escrow not active" := by
      simp [releaseFunds, h1]
    refine ⟨?_, ?_, ?_⟩
    · constructor
      · intro hex
        rcases hex with ⟨st2, hok2⟩
        rw [herr] at hok2
        cases hok2
      · intro hall
        exact absurd hall.1 h1
    · intro st2 hok2
      rw [herr] at hok2
      cases hok2
    · intro _
      exact ⟨_, herr⟩

/-- A concrete escrow for the C8 witness: id 1, amount 5, commitment 3,
hash = string length, contract balance 10. -/
def c8State : EscrowState :=
  ⟨[(1, ⟨"0xBuyer", "0xSeller", 5, 3, 99, .ACTIVE⟩)],
    fun a => if a = "0xEscrow" then 10 else 0, "0xEscrow"⟩

def c8Hash (s : String) : ℕ := s.length

/-- Claim C8, witness: revealing a 3-character proof releases the
concrete escrow (hash matches the commitment 3), while a 4-character
proof makes the call revert. -/
theorem c8_release_funds_characterization_witness :
    (∃ st2, releaseFunds c8Hash c8State 1 "abc" = .ok st2)
    ∧ (∃ e, releaseFunds c8Hash c8State 1 "abcd" = .error e) := by
  have hok := (c8_release_funds_characterization c8Hash c8State 1 "abc").1.mpr
    ⟨by decide, by decide, by decide⟩
  have herr := (c8_release_funds_characterization c8Hash c8State 1 "abcd").2.2
    (by intro hall; exact absurd hall.2.1 (by decide))
  exact ⟨hok, herr⟩

end Sentinel
